import Mathlib

/-!
Verification of the Tenant Database Gateway (KilluaDB backend).

Shallow embedding of the Go services in `internal/services`
(`query_service.go`, `table_service.go`, `project_service.go`) over
`List Char` as the model of Go strings.  External collaborators
(repositories, orchestrator IP registry, Redis persistent store, secret
decryption, the SQL driver) are modelled as an explicit environment of
oracle results, exactly as the spec's §6 collaborator contracts describe
them.
-/

namespace Gateway

/-- Convert a Lean string literal to the `List Char` representation used
throughout the embedding. -/
def gs (s : String) : List Char := s.toList

/-- Go `unicode.IsSpace` restricted to the Latin-1 range (the full Go
predicate also accepts a handful of higher Unicode white-space code
points; no claim depends on those). -/
def goIsSpace (c : Char) : Bool :=
  c = ' ' || c = '\t' || c = '\n' || c = '\x0b' || c = '\x0c' || c = '\r' ||
  c = '\x85' || c = '\xa0'

/-- Go `strings.ToUpper` (ASCII action; `Char.toUpper` maps `a`-`z` to
`A`-`Z` and fixes everything else, which is Go's mapping on ASCII). -/
def listToUpper (s : List Char) : List Char := s.map Char.toUpper

/-- Go `strings.TrimSpace`. -/
def trimSpace (s : List Char) : List Char :=
  ((s.dropWhile goIsSpace).reverse.dropWhile goIsSpace).reverse

/-- Does `pat` match at the head of `s`. -/
def leadMatch : List Char → List Char → Bool
  | [], _ => true
  | _ :: _, [] => false
  | p :: pr, c :: rest => p = c && leadMatch pr rest

/-- Go `strings.Contains s pat` (is `pat` a contiguous substring of `s`). -/
def containsSub (s pat : List Char) : Bool :=
  if leadMatch pat s then true
  else
    match s with
    | [] => false
    | _ :: rest => containsSub rest pat

/-- Go `strings.Split(s, ";")`: the segments of `s` between `;` separators
(a string with `k` semicolons yields `k+1` segments). -/
def splitOnSemi : List Char → List (List Char)
  | [] => [[]]
  | c :: rest =>
    match splitOnSemi rest with
    | [] => [[c]]
    | p :: ps => if c = ';' then [] :: p :: ps else (c :: p) :: ps

/-- The `nonEmptyParts` count of `ValidateSQLQuery`: how many segments are
non-empty after trimming. -/
def countNonEmpty (parts : List (List Char)) : Nat :=
  (parts.filter (fun p => decide (trimSpace p ≠ []))).length

/-- After a `--` line comment: the remainder of the input starting at the
first newline (the regex `--.*` consumes up to, but not including, the
newline). -/
def dropLine : List Char → List Char
  | [] => []
  | c :: rest => if c = '\n' then c :: rest else dropLine rest

/-- After a `/*`: the remainder of the input following the first `*/`
(the non-greedy regex body), or `none` when the block is unterminated. -/
def findClose : List Char → Option (List Char)
  | [] => none
  | '*' :: '/' :: rest => some rest
  | _ :: rest => findClose rest

/-- Extend the first segment of a segment list with a leading character. -/
def consHead (c : Char) : List (List Char) → List (List Char)
  | [] => [[c]]
  | seg :: segs => (c :: seg) :: segs

/-- Fuel-indexed scan implementing the comment search of
`regexp.MustCompile(\x22--.*|/\x2a[\s\S]*?\x2a/\x22).ReplaceAllString(s, \x22\x22)`:
left-to-right, a `--` match consumes to end of line, a terminated
`/* */` block is removed, an unterminated `/*` is literal text.  The
scan returns the maximal runs of input that are NOT inside a comment
match (the kept segments, a new one starting after each match);
concatenating them is exactly the replace-all-with-empty result.
`fuel ≥ s.length` guarantees the scan completes (each step consumes at
least one input character). -/
def keptSegs : Nat → List Char → List (List Char)
  | 0, s => [s]
  | _ + 1, [] => [[]]
  | n + 1, '-' :: '-' :: rest => [] :: keptSegs n (dropLine rest)
  | n + 1, '/' :: '*' :: rest =>
    match findClose rest with
    | some r => [] :: keptSegs n r
    | none => consHead '/' (keptSegs n ('*' :: rest))
  | n + 1, c :: rest => consHead c (keptSegs n rest)

/-- Comment removal as performed by `ValidateSQLQuery`:
`commentPattern.ReplaceAllString(normalized, "")`. -/
def stripComments (s : List Char) : List Char := (keptSegs s.length s).flatten

/-- Formalisation of "`pat` occurs in `u` outside comments": `pat` is a
contiguous substring of one of the runs of `u` that the comment scan
keeps.  (An occurrence of a pattern containing none of `-`, `/`, `*`,
`\n` can never straddle a comment boundary, so this captures exactly the
occurrences lying outside every comment match.) -/
def occursOutsideComments (pat u : List Char) : Prop :=
  ∃ seg ∈ keptSegs u.length u, pat <:+: seg

instance (pat u : List Char) : Decidable (occursOutsideComments pat u) := by
  unfold occursOutsideComments
  infer_instance

/-- The error messages of `query_service.go`. -/
def emptyQueryMsg : List Char := gs "query cannot be empty"

def keywordMsg (kw : List Char) : List Char :=
  gs "operation '" ++ kw ++ gs "' is not allowed for security reasons"

def deleteNeedsWhereMsg : List Char :=
  gs "DELETE statements must include a WHERE clause for safety"

def multiStmtMsg : List Char :=
  gs "multiple statements are not allowed for security reasons"

/-- The `dangerousKeywords` slice, in source order. -/
def dangerousKeywords : List (List Char) :=
  [gs "DROP DATABASE", gs "DROP SCHEMA", gs "TRUNCATE", gs "DELETE FROM",
   gs "ALTER DATABASE", gs "CREATE DATABASE", gs "CREATE SCHEMA"]

/-- The keyword loop of `ValidateSQLQuery`: first contained keyword wins,
except that a contained `DELETE FROM` is allowed when `WHERE` is also
contained. -/
def checkKeywords (normalized : List Char) : List (List Char) → Option (List Char)
  | [] => none
  | kw :: rest =>
    if containsSub normalized kw then
      if kw = gs "DELETE FROM" then
        if !containsSub normalized (gs "WHERE") then some deleteNeedsWhereMsg
        else checkKeywords normalized rest
      else some (keywordMsg kw)
    else checkKeywords normalized rest

/-- The normalisation pipeline of `ValidateSQLQuery`: trim, upper-case,
strip comments, trim again. -/
def normalizeQuery (q : List Char) : List Char :=
  trimSpace (stripComments (listToUpper (trimSpace q)))

/-- `QueryService.ValidateSQLQuery` (query_service.go:51).  `none` means
the query is accepted; `some msg` is the returned error. -/
def validateSQLQuery (q : List Char) : Option (List Char) :=
  let normalized := normalizeQuery q
  if normalized = [] then some emptyQueryMsg
  else
    match checkKeywords normalized dangerousKeywords with
    | some e => some e
    | none =>
      if containsSub normalized (gs ";") && (splitOnSemi normalized).length > 2 then
        if countNonEmpty (splitOnSemi normalized) > 1 then some multiStmtMsg
        else none
      else none

example : validateSQLQuery (gs "SELECT 1") = none := by decide
example : validateSQLQuery (gs "SELECT 1;SELECT 2") = none := by decide
example : validateSQLQuery (gs "SELECT 1;;SELECT 2") = some multiStmtMsg := by decide
example : validateSQLQuery (gs "DROP DATABASE x") = some (keywordMsg (gs "DROP DATABASE")) := by
  decide
example : validateSQLQuery (gs "SELECT 1 /* DROP DATABASE x */") = none := by decide
example : validateSQLQuery (gs "DELETE FROM orders") = some deleteNeedsWhereMsg := by decide
example : validateSQLQuery (gs "DELETE FROM orders WHERE id = 5") = none := by decide
example : validateSQLQuery (gs "  -- only a comment") = some emptyQueryMsg := by decide

/-! ### Identifier and column-type validation -/

/-- First character of both identifier grammars: `[a-zA-Z_]`. -/
def isIdentStart (c : Char) : Bool :=
  ('a' ≤ c && c ≤ 'z') || ('A' ≤ c && c ≤ 'Z') || c = '_'

/-- Later characters of the strict grammar used by the table-definition
operations: `[a-zA-Z0-9_$]`. -/
def isStrictBody (c : Char) : Bool :=
  isIdentStart c || ('0' ≤ c && c ≤ '9') || c = '$'

/-- Later characters of the looser grammar used by the row/column mutation
operations: `[a-zA-Z0-9_\-]`. -/
def isLooseBody (c : Char) : Bool :=
  isIdentStart c || ('0' ≤ c && c ≤ '9') || c = '-'

/-- Anchored match of `^[a-zA-Z_][a-zA-Z0-9_$]*$`. -/
def matchesStrict : List Char → Bool
  | [] => false
  | c :: rest => isIdentStart c && rest.all isStrictBody

/-- Anchored match of `^[a-zA-Z_][a-zA-Z0-9_\-]*$`. -/
def matchesLoose : List Char → Bool
  | [] => false
  | c :: rest => isIdentStart c && rest.all isLooseBody

/-- Go `len` of a string: its UTF-8 byte length. -/
def byteLen (s : List Char) : Nat := (s.map Char.utf8Size).sum

/-- `isValidIdentifier` (table_service.go:281): non-empty, at most 63
bytes, and matching the strict grammar. -/
def isValidIdentifier (name : List Char) : Bool :=
  if name = [] || byteLen name > 63 then false
  else matchesStrict name

/-- `validateIdentifier` (project_service.go:374): the looser validator
used by InsertRow/DeleteRow/AddColumn/DeleteColumn.  `none` = accepted.
There is no length check. -/
def validateIdentifier (identifier : List Char) : Option (List Char) :=
  if identifier = [] then some (gs "identifier cannot be empty")
  else if !matchesLoose identifier then
    some (gs "invalid identifier: must start with letter or underscore and contain only alphanumeric characters, underscores, and hyphens")
  else none

/-- The `validTypes` slice of `isValidColumnType` (table_service.go:343),
in source order. -/
def validTypes : List (List Char) :=
  [gs "INT", gs "INTEGER", gs "BIGINT", gs "SMALLINT", gs "SERIAL", gs "BIGSERIAL",
   gs "DECIMAL", gs "NUMERIC", gs "REAL", gs "DOUBLE PRECISION",
   gs "BOOLEAN", gs "BOOL",
   gs "CHAR", gs "VARCHAR", gs "TEXT",
   gs "DATE", gs "TIME", gs "TIMESTAMP", gs "TIMESTAMPTZ", gs "INTERVAL",
   gs "UUID", gs "JSON", gs "JSONB", gs "BYTEA"]

/-- `isValidColumnType` (table_service.go:340): the upper-cased type must
start with one of the allow-list entries. -/
def isValidColumnType (colType : List Char) : Bool :=
  validTypes.any (fun v => leadMatch v (listToUpper colType))

/-- The allow-list exactly as the spec (§4.1) enumerates it: the same
entries but without the redundant `INTEGER` (every `INTEGER`-prefixed
string is `INT`-prefixed). -/
def specAllowList : List (List Char) :=
  [gs "INT", gs "BIGINT", gs "SMALLINT", gs "SERIAL", gs "BIGSERIAL",
   gs "DECIMAL", gs "NUMERIC", gs "REAL", gs "DOUBLE PRECISION",
   gs "BOOLEAN", gs "BOOL",
   gs "CHAR", gs "VARCHAR", gs "TEXT",
   gs "DATE", gs "TIME", gs "TIMESTAMP", gs "TIMESTAMPTZ", gs "INTERVAL",
   gs "UUID", gs "JSON", gs "JSONB", gs "BYTEA"]

/-- Modelled from the spec: acceptance of a column type as §4.1 words it —
"accepted only if their upper-cased form starts with one of a fixed
allow-list". -/
def specTypeAccepted (colType : List Char) : Bool :=
  specAllowList.any (fun v => leadMatch v (listToUpper colType))

example : isValidColumnType (gs "VARCHAR(50)") = true := by decide
example : isValidColumnType (gs "varchar(50)") = true := by decide
example : isValidColumnType (gs "FROBNICATE") = false := by decide
example : isValidIdentifier (gs "users") = true := by decide
example : isValidIdentifier (gs "1bad") = false := by decide
example : isValidIdentifier (gs "bad;name") = false := by decide
example : validateIdentifier (gs "my-table") = none := by decide
example : isValidIdentifier (gs "my-table") = false := by decide

/-! ### `pq.QuoteIdentifier` and `strconv.ParseInt` -/

/-- `pq.QuoteIdentifier`: truncate at the first NUL, double every embedded
double quote, wrap in double quotes. -/
def quoteIdentifier (name : List Char) : List Char :=
  let truncated := name.takeWhile (fun c => c ≠ '\x00')
  let doubled := truncated.flatMap (fun c => if c = '"' then ['"', '"'] else [c])
  '"' :: doubled ++ ['"']

/-- Digit-accumulating loop of `strconv.ParseInt(s, 10, 64)` (on the
absolute value). `none` on a non-digit. -/
def parseDigits : List Char → Nat → Option Nat
  | [], acc => some acc
  | c :: rest, acc =>
    if '0' ≤ c && c ≤ '9' then parseDigits rest (acc * 10 + (c.toNat - '0'.toNat))
    else none

/-- `strconv.ParseInt(s, 10, 64)`: optional sign, non-empty digit string,
result within the signed 64-bit range.  Go reports a distinct error for
syntax and range failures; both are errors to `DeleteRow`. -/
def parseInt64 (s : List Char) : Except (List Char) Int :=
  let (neg, digits) :=
    match s with
    | '+' :: rest => (false, rest)
    | '-' :: rest => (true, rest)
    | _ => (false, s)
  match digits with
  | [] => .error (gs "invalid syntax")
  | _ =>
    match parseDigits digits 0 with
    | none => .error (gs "invalid syntax")
    | some n =>
      if neg then
        if (n : Int) ≤ 2 ^ 63 then .ok (-(n : Int)) else .error (gs "value out of range")
      else
        if (n : Int) < 2 ^ 63 then .ok (n : Int) else .error (gs "value out of range")

instance {ε α : Type} [DecidableEq ε] [DecidableEq α] : DecidableEq (Except ε α) := fun a b =>
  match a, b with
  | .ok x, .ok y =>
    if h : x = y then .isTrue (by rw [h]) else .isFalse (by intro hc; cases hc; exact h rfl)
  | .error x, .error y =>
    if h : x = y then .isTrue (by rw [h]) else .isFalse (by intro hc; cases hc; exact h rfl)
  | .ok _, .error _ => .isFalse (by intro hc; cases hc)
  | .error _, .ok _ => .isFalse (by intro hc; cases hc)

example : parseInt64 (gs "42") = .ok 42 := by decide
example : parseInt64 (gs "-7") = .ok (-7) := by decide
example : parseInt64 (gs "9223372036854775808") = .error (gs "value out of range") := by decide
example : parseInt64 (gs "x1") = .error (gs "invalid syntax") := by decide
example : parseInt64 (gs "") = .error (gs "invalid syntax") := by decide

/-! ### CreateTable request model and statement builder (table_service.go) -/

structure Column where
  name : List Char
  type : List Char
  dflt : Option (List Char)
  primary : Bool
  isUnique : Bool
  isIdentity : Bool
  nullable : Bool
deriving DecidableEq

structure ForeignKeyRef where
  localColumn : List Char
  foreignColumn : List Char
  onUpdate : List Char
  onDelete : List Char
deriving DecidableEq

structure ForeignKey where
  schema : List Char
  table : List Char
  references : List ForeignKeyRef
deriving DecidableEq

structure CreateTableRequest where
  schema : List Char
  table : List Char
  columns : List Column
  foreignKeys : Option ForeignKey
deriving DecidableEq

/-- The `columnDef` built for one column by `parseCreateQuery`
(table_service.go:174-194): quoted name, type, then the flag-driven
suffixes in source order, then `DEFAULT` for a non-nil non-empty default. -/
def columnDef (col : Column) : List Char :=
  gs "  \"" ++ col.name ++ gs "\" " ++ col.type ++
  (if col.isIdentity then gs " GENERATED ALWAYS AS IDENTITY" else []) ++
  (if col.primary then gs " PRIMARY KEY" else []) ++
  (if col.isUnique then gs " UNIQUE" else []) ++
  (if !col.nullable then gs " NOT NULL" else []) ++
  (match col.dflt with
   | some d => if d ≠ [] then gs " DEFAULT " ++ d else []
   | none => [])

/-- The column section of the `CREATE TABLE` body: a comma after every
clause except the last, which gets one only when a foreign-key section
follows (`i < len-1 || hasFK`). -/
def columnsSection (hasFK : Bool) : List Column → List Char
  | [] => []
  | [col] => columnDef col ++ (if hasFK then gs "," else []) ++ gs "\n"
  | col :: rest => columnDef col ++ gs ",\n" ++ columnsSection hasFK rest

/-- The `fkDef` built for one reference (table_service.go:206-219). -/
def fkDef (fk : ForeignKey) (ref : ForeignKeyRef) : List Char :=
  gs "  FOREIGN KEY (\"" ++ ref.localColumn ++ gs "\") REFERENCES \"" ++
  fk.schema ++ gs "\".\"" ++ fk.table ++ gs "\"(\"" ++ ref.foreignColumn ++ gs "\")" ++
  (if ref.onDelete ≠ [] then gs " ON DELETE " ++ ref.onDelete else []) ++
  (if ref.onUpdate ≠ [] then gs " ON UPDATE " ++ ref.onUpdate else [])

/-- The foreign-key section: a comma after every reference except the last. -/
def fkSection (fk : ForeignKey) : List ForeignKeyRef → List Char
  | [] => []
  | [ref] => fkDef fk ref ++ gs "\n"
  | ref :: rest => fkDef fk ref ++ gs ",\n" ++ fkSection fk rest

/-- Whether `parseCreateQuery` appends a foreign-key section
(`req.ForeignKeys != nil && len(req.ForeignKeys.References) > 0`). -/
def hasFKSection (req : CreateTableRequest) : Bool :=
  match req.foreignKeys with
  | some fk => fk.references.length > 0
  | none => false

/-- `parseCreateQuery` (table_service.go:166): the full `CREATE TABLE`
statement.  An empty schema defaults to `public`. -/
def parseCreateQuery (req : CreateTableRequest) : List Char :=
  let schema := if req.schema = [] then gs "public" else req.schema
  gs "CREATE TABLE \"" ++ schema ++ gs "\".\"" ++ req.table ++ gs "\" (\n" ++
  columnsSection (hasFKSection req) req.columns ++
  (match req.foreignKeys with
   | some fk => if fk.references.length > 0 then fkSection fk fk.references else []
   | none => []) ++
  gs ");\n"

/-- Per-column validation loop of `validateCreateTableRequest`
(table_service.go:308-319): first failing column wins; name checked
before emptiness, emptiness before the type allow-list. -/
def validateColumns : List Column → Option (List Char)
  | [] => none
  | col :: rest =>
    if !isValidIdentifier col.name then some (gs "invalid column name: " ++ col.name)
    else if col.type = [] then some (gs "column type is required for column: " ++ col.name)
    else if !isValidColumnType col.type then
      some (gs "invalid column type for " ++ col.name ++ gs ": " ++ col.type)
    else validateColumns rest

/-- Foreign-key validation of `validateCreateTableRequest`
(table_service.go:322-334). -/
def validateFKs : Option ForeignKey → Option (List Char)
  | none => none
  | some fk =>
    if !isValidIdentifier fk.schema then some (gs "invalid foreign key schema name")
    else if !isValidIdentifier fk.table then some (gs "invalid foreign key table name")
    else if fk.references.any
        (fun ref => !isValidIdentifier ref.localColumn || !isValidIdentifier ref.foreignColumn) then
      some (gs "invalid foreign key column name")
    else none

/-- `validateCreateTableRequest` (table_service.go:291).  `none` =
validation passed.  (The Go error strings carry the column index via
`fmt.Errorf`; the messages here keep the identifying parts only.) -/
def validateCreateTableRequest (req : CreateTableRequest) : Option (List Char) :=
  let schema := if req.schema = [] then gs "public" else req.schema
  if !isValidIdentifier schema then some (gs "invalid schema name")
  else if !isValidIdentifier req.table then some (gs "invalid table name")
  else if req.columns = [] then some (gs "at least one column is required")
  else
    match validateColumns req.columns with
    | some e => some e
    | none => validateFKs req.foreignKeys

/-- The spec's §8 example request. -/
def exampleRequest : CreateTableRequest :=
  { schema := gs "public"
    table := gs "users"
    columns :=
      [{ name := gs "id", type := gs "INT", dflt := none,
         primary := true, isUnique := false, isIdentity := true, nullable := false },
       { name := gs "name", type := gs "VARCHAR(50)", dflt := none,
         primary := false, isUnique := false, isIdentity := false, nullable := false }]
    foreignKeys := none }

example : validateCreateTableRequest exampleRequest = none := by decide
example :
    containsSub (parseCreateQuery exampleRequest)
      (gs "\"id\" INT GENERATED ALWAYS AS IDENTITY PRIMARY KEY NOT NULL") = true := by decide
example :
    containsSub (parseCreateQuery exampleRequest) (gs "\"name\" VARCHAR(50) NOT NULL") = true := by
  decide

/-! ### Tenant Locator and Executor model

The repositories, orchestrator, Redis store, decryption and SQL driver
are external collaborators (spec §6); an `Env` packages the outcome each
one produces for the (userID, projectID) of a single Gateway call. -/

/-- Go error values, modelled by their message. -/
abbrev GoErr := List Char

structure Project where
  id : Nat
deriving DecidableEq

structure DBInstance where
  id : Nat
  containerID : Option (List Char)
  port : Option Int
deriving DecidableEq

structure Credential where
  username : List Char
  passwordEncrypted : List Char
deriving DecidableEq

/-- `models.QueryHistory` (the fields this core writes). -/
structure QueryHistory where
  dbInstanceID : Nat
  userID : Nat
  queryText : List Char
  success : Bool
  executionTimeMs : Int
deriving DecidableEq

/-- `QueryResult` (query_service.go:37); row contents are kept as the
textual values the executor marshals. -/
structure QueryResult where
  columns : List (List Char) := []
  rows : List (List (List Char × Option (List Char))) := []
  rowCount : Nat := 0
  rowsAffected : Int := 0
  executionTime : Int := 0
  error : List Char := []
deriving DecidableEq

/-- The components of the DSN
`host=%s port=%d user=%s password=%s dbname=%s sslmode=disable`. -/
structure ConnInfo where
  host : List Char
  port : Int
  user : List Char
  password : List Char
  dbname : List Char
deriving DecidableEq

/-- Outcomes of the external collaborators for one Gateway call. -/
structure Env where
  /-- `projectRepo.GetByIDAndUserID(projectId, userID)`. -/
  project : Except GoErr (Option Project)
  /-- `instanceRepo.GetRunningByProjectID(projectId)`. -/
  inst : Except GoErr (Option DBInstance)
  /-- `credRepo.GetLatestByInstanceID(inst.ID)`. -/
  cred : Except GoErr (Option Credential)
  /-- `orchestrator.GetContainerIP(containerID)`: the in-memory registry,
  `(ip, ok)` as an `Option`. -/
  containerIP : List Char → Option (List Char)
  /-- `orchestrator.GetContainerIPFromRedis(ctx, containerID)`: the
  persistent store. -/
  redisIP : List Char → Except GoErr (List Char)
  /-- `utils.DecryptString(cred.PasswordEncrypted)`. -/
  decrypt : List Char → Except GoErr (List Char)
  /-- `sql.Open` outcome (`none` = success). -/
  openErr : Option GoErr
  /-- `executeSQLQuery` oracle: the driver-side outcome of running the
  free-form text (the Go helper reports driver errors inside the result
  and always returns a nil error). -/
  runQuery : List Char → QueryResult
  /-- `db.Exec` oracle for structured statements: rows affected, or a
  driver error. -/
  execResult : List Char → Except GoErr Int
  /-- Ambient `time.Since(startTime).Milliseconds()` reading. -/
  elapsedMs : Int

/-- Result shape of `QueryService.ExecuteQuery`: a Go
`(*QueryResult, *models.QueryHistory, error)`.  `hard` is a non-nil
error; `soft` is a structured result returned before any connection was
opened; `ran` additionally records the DSN components of the connection
that was opened. -/
inductive ExecOutcome
  | hard (e : GoErr)
  | soft (r : QueryResult) (h : QueryHistory)
  | ran (conn : ConnInfo) (r : QueryResult) (h : QueryHistory)
deriving DecidableEq

/-- The failure history record synthesized on the early-exit soft paths
of `ExecuteQuery`. -/
def failHistory (instID userID : Nat) (q : List Char) (ms : Int) : QueryHistory :=
  { dbInstanceID := instID, userID := userID, queryText := q,
    success := false, executionTimeMs := ms }

/-- `QueryService.ExecuteQuery` (query_service.go:108), with the
collaborator outcomes supplied by `env`. -/
def executeQuery (env : Env) (userID : Nat) (query : List Char) : ExecOutcome :=
  match env.project with
  | .error e => .hard e
  | .ok none => .hard (gs "project not found or not accessible")
  | .ok (some _) =>
  match env.inst with
  | .error e => .hard e
  | .ok none => .hard (gs "no running database instance for this project")
  | .ok (some inst) =>
  match env.cred with
  | .error e => .hard e
  | .ok none => .hard (gs "no credentials configured for this database instance")
  | .ok (some cred) =>
  match validateSQLQuery query with
  | some e =>
    .soft { error := e, executionTime := env.elapsedMs }
      (failHistory inst.id userID query env.elapsedMs)
  | none =>
  match inst.containerID with
  | none =>
    .soft { error := gs "database instance container ID not configured",
            executionTime := env.elapsedMs }
      (failHistory inst.id userID query env.elapsedMs)
  | some cid =>
  if cid = [] then
    .soft { error := gs "database instance container ID not configured",
            executionTime := env.elapsedMs }
      (failHistory inst.id userID query env.elapsedMs)
  else
  match (match env.containerIP cid with
         | some ip => Except.ok ip
         | none => env.redisIP cid : Except GoErr (List Char)) with
  | .error _ =>
    .soft { error := gs "failed to get container IP from orchestrator",
            executionTime := env.elapsedMs }
      (failHistory inst.id userID query env.elapsedMs)
  | .ok ip =>
  match inst.port with
  | none =>
    .soft { error := gs "database instance port not configured",
            executionTime := env.elapsedMs }
      (failHistory inst.id userID query env.elapsedMs)
  | some port =>
  match env.decrypt cred.passwordEncrypted with
  | .error _ =>
    .soft { error := gs "failed to decrypt database credentials",
            executionTime := env.elapsedMs }
      (failHistory inst.id userID query env.elapsedMs)
  | .ok password =>
  match env.openErr with
  | some e =>
    .soft { error := e, executionTime := env.elapsedMs }
      (failHistory inst.id userID query env.elapsedMs)
  | none =>
    let conn : ConnInfo :=
      { host := ip, port := port, user := cred.username,
        password := password, dbname := gs "postgres" }
    let result := env.runQuery query
    let result := { result with executionTime := env.elapsedMs }
    let success := result.error = []
    .ran conn result
      { dbInstanceID := inst.id, userID := userID, queryText := query,
        success := success, executionTimeMs := env.elapsedMs }

/-- `ProjectService.getDBConnection` (project_service.go:309): the Tenant
Locator used by the structured operations.  Returns the DSN components
of the opened connection, or the hard error.  Note the order differs
from `ExecuteQuery`: container-ID and port are both checked before IP
resolution. -/
def getDBConnection (env : Env) : Except GoErr ConnInfo :=
  match env.project with
  | .error e => .error e
  | .ok none => .error (gs "project not found or not accessible")
  | .ok (some _) =>
  match env.inst with
  | .error e => .error e
  | .ok none => .error (gs "no running database instance for this project")
  | .ok (some inst) =>
  match env.cred with
  | .error e => .error e
  | .ok none => .error (gs "no credentials configured for this database instance")
  | .ok (some cred) =>
  match inst.containerID with
  | none => .error (gs "database instance container ID not configured")
  | some cid =>
  if cid = [] then .error (gs "database instance container ID not configured")
  else
  match inst.port with
  | none => .error (gs "database instance port not configured")
  | some port =>
  match (match env.containerIP cid with
         | some ip => Except.ok ip
         | none => env.redisIP cid : Except GoErr (List Char)) with
  | .error e => .error (gs "failed to get container IP: " ++ e)
  | .ok ip =>
  match env.decrypt cred.passwordEncrypted with
  | .error e => .error (gs "failed to decrypt database credentials: " ++ e)
  | .ok password =>
  match env.openErr with
  | some e => .error (gs "failed to open database connection: " ++ e)
  | none =>
    .ok { host := ip, port := port, user := cred.username,
          password := password, dbname := gs "postgres" }

/-! ### DeleteRow and AddColumn (project_service.go) -/

/-- Result of a structured mutation: the statement (and bound parameters)
actually sent to the tenant, if any, plus the Go error returned. -/
structure MutationResult where
  /-- The SQL text handed to `db.Exec`/`db.QueryRow`, with the bound
  parameter values, when execution was reached. -/
  executed : Option (List Char × List Int)
  error : Option GoErr
deriving DecidableEq

/-- `ProjectService.DeleteRow` (project_service.go:534): validate the
table name, locate the tenant, parse the path row id as a base-10
64-bit integer, then run
`DELETE FROM <quoted table> WHERE customer_id = $1`. -/
def deleteRow (env : Env) (tableName rowID : List Char) : MutationResult :=
  match validateIdentifier tableName with
  | some e => { executed := none, error := some (gs "invalid table name: " ++ e) }
  | none =>
  match getDBConnection env with
  | .error e => { executed := none, error := some e }
  | .ok _ =>
  match parseInt64 rowID with
  | .error e => { executed := none, error := some (gs "invalid row id: " ++ e) }
  | .ok rowIDInt =>
    let query := gs "DELETE FROM " ++ quoteIdentifier tableName ++ gs " WHERE customer_id = $1"
    match env.execResult query with
    | .error e => { executed := some (query, [rowIDInt]),
                    error := some (gs "failed to delete row: " ++ e) }
    | .ok rowsAffected =>
      if rowsAffected = 0 then
        { executed := some (query, [rowIDInt]), error := some (gs "row not found") }
      else
        { executed := some (query, [rowIDInt]), error := none }

/-- JSON values reaching `AddColumnRequest.Default`; a non-string
non-bool value is carried as its `%v` rendering. -/
inductive GoVal
  | str (s : List Char)
  | boolean (b : Bool)
  | other (rendered : List Char)
deriving DecidableEq

/-- The `DEFAULT` clause appended by `AddColumn`
(project_service.go:627-644): strings single-quote-escaped and quoted,
booleans as `TRUE`/`FALSE`, everything else interpolated verbatim. -/
def addColumnDefaultClause : Option GoVal → List Char
  | none => []
  | some (.str v) =>
    gs " DEFAULT '" ++ v.flatMap (fun c => if c = '\'' then ['\'', '\''] else [c]) ++ gs "'"
  | some (.boolean true) => gs " DEFAULT TRUE"
  | some (.boolean false) => gs " DEFAULT FALSE"
  | some (.other rendered) => gs " DEFAULT " ++ rendered

/-- The `ALTER TABLE ... ADD COLUMN` statement `AddColumn` builds. -/
def addColumnSQL (tableName name colType : List Char) (dflt : Option GoVal) : List Char :=
  gs "ALTER TABLE " ++ quoteIdentifier tableName ++ gs " ADD COLUMN " ++
  quoteIdentifier name ++ gs " " ++ colType ++ addColumnDefaultClause dflt

/-- `ProjectService.AddColumn` (project_service.go:592), up to and
including the `db.Exec` of the built statement (the subsequent
`information_schema` lookup only affects the reported column id). -/
def addColumn (env : Env) (tableName name colType : List Char)
    (dflt : Option GoVal) : MutationResult :=
  match validateIdentifier tableName with
  | some e => { executed := none, error := some (gs "invalid table name: " ++ e) }
  | none =>
  match validateIdentifier name with
  | some e => { executed := none, error := some (gs "invalid column name: " ++ e) }
  | none =>
  if colType = [] then { executed := none, error := some (gs "column type cannot be empty") }
  else
  match getDBConnection env with
  | .error e => { executed := none, error := some e }
  | .ok _ =>
    let query := addColumnSQL tableName name colType dflt
    match env.execResult query with
    | .error e => { executed := some (query, []),
                    error := some (gs "failed to add column: " ++ e) }
    | .ok _ => { executed := some (query, []), error := none }

/-- An environment in which every collaborator succeeds, for concrete
evaluations. -/
def envOK : Env :=
  { project := .ok (some { id := 7 })
    inst := .ok (some { id := 3, containerID := some (gs "cont-1"), port := some 5432 })
    cred := .ok (some { username := gs "admin", passwordEncrypted := gs "enc" })
    containerIP := fun cid => if cid = gs "cont-1" then some (gs "10.0.0.9") else none
    redisIP := fun _ => .error (gs "no mapping")
    decrypt := fun s => if s = gs "enc" then .ok (gs "pw") else .error (gs "bad ciphertext")
    openErr := none
    runQuery := fun _ => { rowsAffected := 1 }
    execResult := fun _ => .ok 1
    elapsedMs := 5 }

example :
    deleteRow envOK (gs "orders") (gs "42") =
      { executed := some (gs "DELETE FROM \"orders\" WHERE customer_id = $1", [42]),
        error := none } := by decide

example :
    addColumn envOK (gs "orders") (gs "note") (gs "FROBNICATE") none =
      { executed := some (gs "ALTER TABLE \"orders\" ADD COLUMN \"note\" FROBNICATE", []),
        error := none } := by decide

/-! ### Lemmas: substring search -/

theorem leadMatch_iff (pat s : List Char) : leadMatch pat s = true ↔ pat <+: s := by
  induction pat generalizing s with
  | nil => simp [leadMatch]
  | cons p pr ih =>
    cases s with
    | nil => simp [leadMatch]
    | cons c rest => simp [leadMatch, ih, List.cons_prefix_cons]

theorem containsSub_iff (s pat : List Char) : containsSub s pat = true ↔ pat <:+: s := by
  induction s with
  | nil =>
    rw [containsSub]
    cases pat with
    | nil => simp [leadMatch]
    | cons p pr => simp [leadMatch, List.infix_nil]
  | cons c rest ih =>
    rw [containsSub]
    by_cases h : leadMatch pat (c :: rest) = true
    · simp only [h, if_true, true_iff]
      exact ((leadMatch_iff _ _).mp h).isInfix
    · simp only [h, if_false, Bool.false_eq_true]
      rw [ih, List.infix_cons_iff]
      constructor
      · exact Or.inr
      · rintro (hp | hi)
        · exact absurd ((leadMatch_iff _ _).mpr hp) h
        · exact hi

theorem containsSub_cons_of (c : Char) (s pat : List Char)
    (h : containsSub s pat = true) : containsSub (c :: s) pat = true := by
  rw [containsSub]
  split <;> simp [h]

/-! ### Lemmas: trimming preserves interior substrings -/

theorem dropWhile_append_cons (p : Char → Bool) (x t : List Char) (c : Char)
    (hc : p c = false) :
    List.dropWhile p (x ++ c :: t) = List.dropWhile p x ++ c :: t := by
  induction x with
  | nil => simp [List.dropWhile_cons, hc]
  | cons a x ih =>
    by_cases ha : p a = true
    · simp [List.dropWhile_cons, ha, ih]
    · simp [List.dropWhile_cons, ha]

theorem infix_trimSpace {pat s : List Char} (h : pat <:+: s)
    (c0 : Char) (t0 : List Char) (h0 : pat = c0 :: t0) (hc0 : goIsSpace c0 = false)
    (c1 : Char) (t1 : List Char) (h1 : pat = t1 ++ [c1]) (hc1 : goIsSpace c1 = false) :
    pat <:+: trimSpace s := by
  obtain ⟨x, y, rfl⟩ := h
  unfold trimSpace
  have step1 : List.dropWhile goIsSpace (x ++ pat ++ y) =
      List.dropWhile goIsSpace x ++ pat ++ y := by
    rw [List.append_assoc, h0, List.cons_append, dropWhile_append_cons _ _ _ _ hc0,
      ← List.cons_append, ← h0, ← List.append_assoc]
  rw [step1]
  set x' := List.dropWhile goIsSpace x with hx'
  have step2 : (x' ++ pat ++ y).reverse = y.reverse ++ c1 :: (t1.reverse ++ x'.reverse) := by
    rw [h1]
    simp [List.reverse_append]
  rw [step2, dropWhile_append_cons _ _ _ _ hc1]
  refine ⟨x', (List.dropWhile goIsSpace y.reverse).reverse, ?_⟩
  rw [h1]
  simp [List.reverse_append]

/-! ### Lemmas: the comment scan -/

theorem consHead_ne_nil (c : Char) (l : List (List Char)) : consHead c l ≠ [] := by
  cases l <;> simp [consHead]

theorem keptSegs_ne_nil (n : Nat) (s : List Char) : keptSegs n s ≠ [] := by
  rw [keptSegs.eq_def]
  split
  · simp
  · simp
  · simp
  · split
    · simp
    · exact consHead_ne_nil _ _
  · exact consHead_ne_nil _ _

/-- Prepend a run of characters to the first segment. -/
def prependSeg (a : List Char) : List (List Char) → List (List Char)
  | [] => [a]
  | seg :: segs => (a ++ seg) :: segs

theorem prependSeg_of_ne (segs : List (List Char)) (h : segs ≠ []) :
    prependSeg [] segs = segs := by
  cases segs with
  | nil => exact absurd rfl h
  | cons seg rest => simp [prependSeg]

theorem consHead_prependSeg (c : Char) (a : List Char) (segs : List (List Char)) :
    consHead c (prependSeg a segs) = prependSeg (c :: a) segs := by
  cases segs <;> simp [consHead, prependSeg]

theorem flatten_prependSeg (a : List Char) (segs : List (List Char)) :
    (prependSeg a segs).flatten = a ++ segs.flatten := by
  cases segs <;> simp [prependSeg]

theorem keptSegs_cons (n : Nat) (c : Char) (rest : List Char)
    (h1 : c ≠ '-') (h2 : c ≠ '/') :
    keptSegs (n + 1) (c :: rest) = consHead c (keptSegs n rest) := by
  rw [keptSegs.eq_def]
  split <;> simp_all

theorem keptSegs_block (n : Nat) (rest r : List Char) (h : findClose rest = some r) :
    keptSegs (n + 1) ('/' :: '*' :: rest) = [] :: keptSegs n r := by
  simp [keptSegs, h]

theorem keptSegs_plain_append (a : List Char) (m : Nat) (s : List Char)
    (ha : ∀ c ∈ a, c ≠ '-' ∧ c ≠ '/') :
    keptSegs (a.length + m) (a ++ s) = prependSeg a (keptSegs m s) := by
  induction a with
  | nil =>
    simp only [List.length_nil, Nat.zero_add, List.nil_append]
    exact (prependSeg_of_ne _ (keptSegs_ne_nil m s)).symm
  | cons c a ih =>
    have h1 : c ≠ '-' := (ha c (by simp)).1
    have h2 : c ≠ '/' := (ha c (by simp)).2
    have hlen : (c :: a).length + m = (a.length + m) + 1 := by simp; omega
    rw [hlen, List.cons_append, keptSegs_cons _ _ _ h1 h2,
      ih (fun d hd => ha d (by simp [hd])), consHead_prependSeg]

theorem findClose_append (l t : List Char) (h : containsSub l (gs "*/") = false) :
    findClose (l ++ '*' :: '/' :: t) = some t := by
  induction l with
  | nil => rfl
  | cons x l ih =>
    rw [containsSub] at h
    split at h
    · simp at h
    · rename_i hlm
      have h' : containsSub l (gs "*/") = false := h
      rw [List.cons_append, findClose.eq_def]
      split
      · rename_i heq; exact absurd heq (by simp)
      · rename_i rest heq
        injection heq with hx htail
        exfalso
        cases l with
        | nil =>
          rw [List.nil_append] at htail
          injection htail with hsd
          exact absurd hsd (by decide)
        | cons y l2 =>
          rw [List.cons_append] at htail
          injection htail with hy
          apply hlm
          subst hx hy
          simp [leadMatch]
      · rename_i heq
        injection heq with h1 h2
        rw [← h2]
        exact ih h'

theorem containsSub_snoc (l : List Char) (b : Char) (hb : b ≠ '/')
    (h : containsSub l (gs "*/") = false) : containsSub (l ++ [b]) (gs "*/") = false := by
  induction l with
  | nil =>
    rw [List.nil_append, containsSub]
    split
    · rename_i hlm
      exfalso
      simp [leadMatch] at hlm
    · rfl
  | cons x l ih =>
    rw [containsSub] at h
    split at h
    · simp at h
    · rename_i hlm
      have h' : containsSub l (gs "*/") = false := h
      rw [List.cons_append, containsSub]
      split
      · rename_i hlm2
        exfalso
        simp only [leadMatch, Bool.and_eq_true, decide_eq_true_eq] at hlm2
        obtain ⟨hx, hrest⟩ := hlm2
        cases l with
        | nil =>
          simp only [List.nil_append, leadMatch, Bool.and_eq_true, decide_eq_true_eq] at hrest
          exact hb hrest.1.symm
        | cons y l2 =>
          simp only [List.cons_append, leadMatch, Bool.and_eq_true, decide_eq_true_eq] at hrest
          apply hlm
          simp only [leadMatch, Bool.and_eq_true, decide_eq_true_eq]
          exact ⟨hx, hrest.1, trivial⟩
      · exact ih h'

theorem containsSub_cons_ne (l : List Char) (a : Char) (ha : a ≠ '*')
    (h : containsSub l (gs "*/") = false) : containsSub (a :: l) (gs "*/") = false := by
  rw [containsSub]
  split
  · rename_i hlm
    exfalso
    simp only [leadMatch, Bool.and_eq_true, decide_eq_true_eq] at hlm
    exact ha hlm.1.symm
  · exact h

theorem trimSpace_eq_self (l m : List Char) (c d : Char)
    (hform : l = c :: (m ++ [d])) (hc : goIsSpace c = false) (hd : goIsSpace d = false) :
    trimSpace l = l := by
  subst hform
  unfold trimSpace
  rw [List.dropWhile_cons_of_neg (by simp [hc])]
  have hrev : (c :: (m ++ [d])).reverse = d :: (m.reverse ++ [c]) := by
    simp
  rw [hrev, List.dropWhile_cons_of_neg (by simp [hd])]
  simp

/-! ### The two halves of the DROP DATABASE property -/

theorem validate_rejects_outside_dropdb (q : List Char)
    (h : occursOutsideComments (gs "DROP DATABASE") (listToUpper (trimSpace q))) :
    validateSQLQuery q = some (keywordMsg (gs "DROP DATABASE")) := by
  obtain ⟨seg, hmem, hinf⟩ := h
  have h1 : gs "DROP DATABASE" <:+: stripComments (listToUpper (trimSpace q)) :=
    hinf.trans (List.infix_of_mem_flatten hmem)
  have h2 : gs "DROP DATABASE" <:+: normalizeQuery q :=
    infix_trimSpace h1 'D' (gs "ROP DATABASE") (by decide) (by decide)
      'E' (gs "DROP DATABAS") (by decide) (by decide)
  have h3 : containsSub (normalizeQuery q) (gs "DROP DATABASE") = true :=
    (containsSub_iff _ _).mpr h2
  have h4 : normalizeQuery q ≠ [] := by
    intro he
    rw [he] at h2
    have h5 := List.infix_nil.mp h2
    exact absurd h5 (by decide)
  have h5 : checkKeywords (normalizeQuery q) dangerousKeywords =
      some (keywordMsg (gs "DROP DATABASE")) := by
    rw [dangerousKeywords, checkKeywords, h3]
    simp only [if_true]
    rw [if_neg (by decide)]
  simp only [validateSQLQuery]
  rw [if_neg h4, h5]

theorem validate_accepts_comment_dropdb (c : List Char)
    (h : containsSub (listToUpper c) (gs "*/") = false) :
    validateSQLQuery (gs "SELECT 1 /* " ++ c ++ gs " */") = none := by
  have htrim : trimSpace (gs "SELECT 1 /* " ++ c ++ gs " */") =
      gs "SELECT 1 /* " ++ c ++ gs " */" := by
    apply trimSpace_eq_self _ (gs "ELECT 1 /* " ++ c ++ gs " *") 'S' '/'
    · have e1 : gs "SELECT 1 /* " = 'S' :: gs "ELECT 1 /* " := by decide
      have e2 : gs " */" = gs " *" ++ ['/'] := by decide
      rw [e1, e2]
      simp [List.append_assoc]
    · decide
    · decide
  have hupper : listToUpper (gs "SELECT 1 /* " ++ c ++ gs " */") =
      gs "SELECT 1 /* " ++ listToUpper c ++ gs " */" := by
    simp only [listToUpper, List.map_append]
    rw [show (gs "SELECT 1 /* ").map Char.toUpper = gs "SELECT 1 /* " from by decide,
      show (gs " */").map Char.toUpper = gs " */" from by decide]
  have hl0 : containsSub (' ' :: (listToUpper c ++ [' '])) (gs "*/") = false :=
    containsSub_cons_ne _ ' ' (by decide)
      (containsSub_snoc (listToUpper c) ' ' (by decide) h)
  have hfc : findClose ((' ' :: (listToUpper c ++ [' '])) ++ '*' :: '/' :: []) = some [] :=
    findClose_append _ [] hl0
  have eShape : gs "SELECT 1 /* " ++ listToUpper c ++ gs " */" =
      gs "SELECT 1 " ++ ('/' :: '*' :: ((' ' :: (listToUpper c ++ [' '])) ++ '*' :: '/' :: [])) := by
    have d1 : gs "SELECT 1 /* " = gs "SELECT 1 " ++ ['/', '*', ' '] := by decide
    have d2 : gs " */" = [' ', '*', '/'] := by decide
    rw [d1, d2]
    simp [List.append_assoc]
  have hstrip : stripComments (gs "SELECT 1 /* " ++ listToUpper c ++ gs " */") =
      gs "SELECT 1 " := by
    unfold stripComments
    rw [eShape, List.length_append,
      keptSegs_plain_append _ _ _ (by decide),
      show ('/' :: '*' :: ((' ' :: (listToUpper c ++ [' '])) ++ '*' :: '/' :: [])).length =
        (((' ' :: (listToUpper c ++ [' '])) ++ '*' :: '/' :: []).length + 1) + 1 from by simp,
      keptSegs_block _ _ _ hfc,
      show keptSegs (((' ' :: (listToUpper c ++ [' '])) ++ '*' :: '/' :: []).length + 1) [] = [[]]
        from rfl]
    simp [prependSeg]
  have hnorm : normalizeQuery (gs "SELECT 1 /* " ++ c ++ gs " */") = gs "SELECT 1" := by
    unfold normalizeQuery
    rw [htrim, hupper, hstrip]
    decide
  simp only [validateSQLQuery]
  rw [hnorm]
  decide

/-! ### Lemmas: the multi-statement guard -/

theorem splitOnSemi_ne_nil (s : List Char) : splitOnSemi s ≠ [] := by
  cases s with
  | nil => simp [splitOnSemi]
  | cons c rest =>
    rw [splitOnSemi]
    cases h : splitOnSemi rest with
    | nil => simp
    | cons p ps =>
      by_cases hc : c = ';' <;> simp [hc]

theorem containsSub_semi (s : List Char) (h : (splitOnSemi s).length > 1) :
    containsSub s (gs ";") = true := by
  induction s with
  | nil => simp [splitOnSemi] at h
  | cons c rest ih =>
    rw [splitOnSemi] at h
    cases hs : splitOnSemi rest with
    | nil => exact absurd hs (splitOnSemi_ne_nil rest)
    | cons p ps =>
      rw [hs] at h
      have h2 : (if c = ';' then ([] : List Char) :: p :: ps else (c :: p) :: ps).length > 1 := h
      by_cases hc : c = ';'
      · subst hc
        rw [containsSub]
        simp [leadMatch]
      · rw [if_neg hc] at h2
        simp only [List.length_cons] at h2
        have hr : (splitOnSemi rest).length > 1 := by
          rw [hs]
          simp only [List.length_cons]
          omega
        exact containsSub_cons_of c rest (gs ";") (ih hr)

theorem validate_rejects_multi (q : List Char)
    (hlen : (splitOnSemi (normalizeQuery q)).length > 2)
    (hcnt : countNonEmpty (splitOnSemi (normalizeQuery q)) > 1) :
    ∃ e, validateSQLQuery q = some e := by
  have hne : normalizeQuery q ≠ [] := by
    intro he
    rw [he] at hlen
    simp [splitOnSemi] at hlen
  have hsemi : containsSub (normalizeQuery q) (gs ";") = true :=
    containsSub_semi _ (by omega)
  simp only [validateSQLQuery]
  rw [if_neg hne]
  cases hck : checkKeywords (normalizeQuery q) dangerousKeywords with
  | some e => exact ⟨e, rfl⟩
  | none =>
    refine ⟨multiStmtMsg, ?_⟩
    rw [hsemi]
    simp only [Bool.true_and]
    rw [if_pos (by exact decide_eq_true hlen), if_pos hcnt]

/-! ### Lemmas: column types and the CREATE TABLE builder -/

theorem leadMatch_append (p r s : List Char) (h : leadMatch (p ++ r) s = true) :
    leadMatch p s = true := by
  induction p generalizing s with
  | nil => rfl
  | cons a p ih =>
    cases s with
    | nil => simp [leadMatch] at h
    | cons b s =>
      simp only [List.cons_append, leadMatch, Bool.and_eq_true] at h ⊢
      exact ⟨h.1, ih s h.2⟩

theorem validateColumns_types (cols : List Column) (h : validateColumns cols = none) :
    ∀ col ∈ cols, isValidColumnType col.type = true := by
  induction cols with
  | nil => intro col hc; cases hc
  | cons c cs ih =>
    rw [validateColumns] at h
    split at h
    · exact absurd h (by simp)
    · split at h
      · exact absurd h (by simp)
      · split at h
        · exact absurd h (by simp)
        · rename_i h1 h2 h3
          intro col hcol
          rcases List.mem_cons.mp hcol with rfl | hmem
          · simpa using h3
          · exact ih h col hmem

theorem validateCreate_columns (req : CreateTableRequest)
    (h : validateCreateTableRequest req = none) :
    validateColumns req.columns = none ∧ req.columns ≠ [] := by
  simp only [validateCreateTableRequest] at h
  repeat' split at h
  all_goals simp_all

/-- Joining clauses with a separator, as the claim describes the column
section (one clause per column in declaration order). -/
def joinClauses (sep : List Char) : List (List Char) → List Char
  | [] => []
  | [x] => x
  | x :: xs => x ++ sep ++ joinClauses sep xs

theorem columnsSection_eq (hasFK : Bool) (cols : List Column) (h : cols ≠ []) :
    columnsSection hasFK cols =
      joinClauses (gs ",\n") (cols.map columnDef) ++
      (if hasFK then gs "," else []) ++ gs "\n" := by
  induction cols with
  | nil => exact absurd rfl h
  | cons c cs ih =>
    cases cs with
    | nil => simp [columnsSection, joinClauses, List.append_assoc]
    | cons c2 cs2 =>
      have hjc : ∀ (x y : List Char) (xs : List (List Char)),
          joinClauses (gs ",\n") (x :: y :: xs) = x ++ gs ",\n" ++ joinClauses (gs ",\n") (y :: xs) :=
        fun x y xs => rfl
      rw [columnsSection, ih (List.cons_ne_nil c2 cs2)]
      · simp only [List.map_cons]
        rw [hjc]
        simp [List.append_assoc]
      · simp

theorem fkSection_eq (fk : ForeignKey) (refs : List ForeignKeyRef) (h : refs ≠ []) :
    fkSection fk refs = joinClauses (gs ",\n") (refs.map (fkDef fk)) ++ gs "\n" := by
  induction refs with
  | nil => exact absurd rfl h
  | cons r rs ih =>
    cases rs with
    | nil => simp [fkSection, joinClauses]
    | cons r2 rs2 =>
      have hjc : ∀ (x y : List Char) (xs : List (List Char)),
          joinClauses (gs ",\n") (x :: y :: xs) = x ++ gs ",\n" ++ joinClauses (gs ",\n") (y :: xs) :=
        fun x y xs => rfl
      rw [fkSection, ih (List.cons_ne_nil r2 rs2)]
      · simp only [List.map_cons]
        rw [hjc]
        simp [List.append_assoc]
      · simp

/-- The foreign-key tail of the built `CREATE TABLE` statement: one
`FOREIGN KEY` clause per reference in declaration order, joined by
`,\n`; empty when no block (or an empty reference list) is present. -/
def fkTail : Option ForeignKey → List Char
  | some fk =>
    if fk.references.length > 0 then
      joinClauses (gs ",\n") (fk.references.map (fkDef fk)) ++ gs "\n"
    else []
  | none => []

theorem isValidColumnType_eq_spec (t : List Char) :
    isValidColumnType t = specTypeAccepted t := by
  unfold isValidColumnType specTypeAccepted validTypes specAllowList
  simp only [List.any_cons, List.any_nil]
  cases hINT : leadMatch (gs "INT") (listToUpper t)
  · cases hINTEGER : leadMatch (gs "INTEGER") (listToUpper t)
    · simp
    · have h1 : leadMatch (gs "INT") (listToUpper t) = true := by
        have he : gs "INTEGER" = gs "INT" ++ gs "EGER" := by decide
        exact leadMatch_append _ _ _ (by rw [← he]; exact hINTEGER)
      rw [h1] at hINT
      cases hINT
  · simp

/-! ## Claim theorems -/

/-- C1 (counterexample): the claim says any query whose normalized text
splits on `;` into more than one non-empty segment is rejected.
`SELECT 1;SELECT 2` normalizes to itself and splits into exactly two
non-empty segments, yet `ValidateSQLQuery` accepts it: the guard at
query_service.go:90 only fires when `len(strings.Split(.., ";")) > 2`,
i.e. when there are at least two semicolons. -/
theorem C1_counterexample :
    countNonEmpty (splitOnSemi (normalizeQuery (gs "SELECT 1;SELECT 2"))) = 2 ∧
    validateSQLQuery (gs "SELECT 1;SELECT 2") = none := by decide

/-- C1 (amended): for every query whose normalized text (trimmed,
upper-cased, comments stripped) splits on `;` into more than TWO
segments of which more than one is non-empty, `ValidateSQLQuery`
rejects it. -/
theorem C1_amended (q : List Char)
    (hlen : (splitOnSemi (normalizeQuery q)).length > 2)
    (hcnt : countNonEmpty (splitOnSemi (normalizeQuery q)) > 1) :
    ∃ e, validateSQLQuery q = some e :=
  validate_rejects_multi q hlen hcnt

/-- C1 witness: `SELECT 1;;SELECT 2` has two semicolons and two non-empty
segments and is rejected. -/
theorem C1_witness :
    (splitOnSemi (normalizeQuery (gs "SELECT 1;;SELECT 2"))).length > 2 ∧
    countNonEmpty (splitOnSemi (normalizeQuery (gs "SELECT 1;;SELECT 2"))) > 1 ∧
    ∃ e, validateSQLQuery (gs "SELECT 1;;SELECT 2") = some e :=
  ⟨by decide, by decide, C1_amended (gs "SELECT 1;;SELECT 2") (by decide) (by decide)⟩

/-- C4: (a) every query whose upper-cased trimmed text contains
`DROP DATABASE` outside comments is rejected with the corresponding
keyword error (any letter case of the original is covered because the
occurrence hypothesis is about the upper-cased text); (b) a
`DROP DATABASE` (or anything else not containing the terminator `*/`)
inside a `/* ... */` block comment is ignored: the otherwise-safe
statement `SELECT 1 /* c */` is accepted for every such comment body. -/
theorem C4_confirmed :
    (∀ q : List Char, occursOutsideComments (gs "DROP DATABASE") (listToUpper (trimSpace q)) →
      validateSQLQuery q = some (keywordMsg (gs "DROP DATABASE"))) ∧
    (∀ c : List Char, containsSub (listToUpper c) (gs "*/") = false →
      validateSQLQuery (gs "SELECT 1 /* " ++ c ++ gs " */") = none) :=
  ⟨validate_rejects_outside_dropdb, validate_accepts_comment_dropdb⟩

/-- C4 witness: a lower-case `drop database` outside comments is rejected;
the same text inside a block comment is accepted. -/
theorem C4_witness :
    occursOutsideComments (gs "DROP DATABASE")
      (listToUpper (trimSpace (gs "drop database prod"))) ∧
    validateSQLQuery (gs "drop database prod") = some (keywordMsg (gs "DROP DATABASE")) ∧
    containsSub (listToUpper (gs "DROP DATABASE prod")) (gs "*/") = false ∧
    validateSQLQuery (gs "SELECT 1 /* " ++ gs "DROP DATABASE prod" ++ gs " */") = none :=
  ⟨by decide, C4_confirmed.1 (gs "drop database prod") (by decide), by decide,
   C4_confirmed.2 (gs "DROP DATABASE prod") (by decide)⟩

/-- C5: the strict identifier validator used by CreateTable/DeleteTable
accepts exactly the non-empty strings of at most 63 bytes matching
the anchored grammar (first character a letter or underscore, later
characters letters, digits, underscore or dollar). -/
theorem C5_confirmed (name : List Char) :
    isValidIdentifier name = true ↔
      name ≠ [] ∧ byteLen name ≤ 63 ∧ matchesStrict name = true := by
  unfold isValidIdentifier
  split
  · rename_i hcond
    simp only [decide_eq_true_eq, Bool.or_eq_true] at hcond
    constructor
    · intro h; cases h
    · rintro ⟨hne, hlen, _⟩
      rcases hcond with h | h
      · exact absurd h hne
      · omega
  · rename_i hcond
    simp only [decide_eq_true_eq, Bool.or_eq_true, not_or] at hcond
    constructor
    · intro h
      exact ⟨hcond.1, by have := hcond.2; omega, h⟩
    · rintro ⟨_, _, h⟩
      exact h

/-- C9: the looser validator used by the row/column mutation operations
accepts every string matching `[a-zA-Z_][a-zA-Z0-9_\-]*` with no length
bound: in particular every identifier consisting of `a` repeated `k+1`
times is accepted, including a 100-byte one. -/
theorem C9_confirmed :
    (∀ s : List Char, matchesLoose s = true → validateIdentifier s = none) ∧
    (∀ k : Nat, validateIdentifier ('a' :: List.replicate k 'a') = none) ∧
    validateIdentifier ('a' :: List.replicate 99 'a') = none ∧
    63 < byteLen ('a' :: List.replicate 99 'a') := by
  have hmain : ∀ s : List Char, matchesLoose s = true → validateIdentifier s = none := by
    intro s h
    have hne : s ≠ [] := by
      intro he
      rw [he] at h
      simp [matchesLoose] at h
    unfold validateIdentifier
    rw [if_neg hne, if_neg (by simp [h])]
  have hrep : ∀ k : Nat, validateIdentifier ('a' :: List.replicate k 'a') = none := by
    intro k
    apply hmain
    simp only [matchesLoose, Bool.and_eq_true]
    refine ⟨by decide, ?_⟩
    rw [List.all_eq_true]
    intro x hx
    rw [List.eq_of_mem_replicate hx]
    decide
  exact ⟨hmain, hrep, hrep 99, by decide⟩

/-- C9 witness: a hyphenated name and an over-63-byte name are both
accepted by the loose validator (while the strict one bounds length). -/
theorem C9_witness :
    validateIdentifier (gs "my-table") = none ∧
    validateIdentifier ('a' :: List.replicate 80 'a') = none :=
  ⟨C9_confirmed.1 (gs "my-table") (by decide), C9_confirmed.2.1 80⟩

/-- C2 (counterexample): the claim says the type supplied to AddColumn is
checked against the allow-list before any SQL is built.  `FROBNICATE`
starts with no allow-list entry, yet `AddColumn` (which only rejects the
empty type string) builds the ALTER TABLE statement with it and sends it
to the tenant. -/
theorem C2_counterexample :
    isValidColumnType (gs "FROBNICATE") = false ∧
    (addColumn envOK (gs "orders") (gs "note") (gs "FROBNICATE") none).executed =
      some (gs "ALTER TABLE \"orders\" ADD COLUMN \"note\" FROBNICATE", []) ∧
    (addColumn envOK (gs "orders") (gs "note") (gs "FROBNICATE") none).error = none := by
  decide

/-- C2 (amended): (a) `isValidColumnType` accepts exactly the strings
whose upper-cased form starts with an entry of the spec's allow-list
(the code's extra `INTEGER` entry is redundant, as `INT` is its prefix);
(b) every column of a CreateTable request that passes validation has an
allow-listed type; (c) `AddColumn` performs no allow-list check: any
non-empty type with valid identifiers is interpolated into the
`ALTER TABLE` statement and executed. -/
theorem C2_amended :
    (∀ t : List Char, isValidColumnType t = specTypeAccepted t) ∧
    (∀ req : CreateTableRequest, validateCreateTableRequest req = none →
      ∀ col ∈ req.columns, isValidColumnType col.type = true) ∧
    (∀ (env : Env) (tbl nm ty : List Char) (d : Option GoVal) (conn : ConnInfo),
      validateIdentifier tbl = none → validateIdentifier nm = none → ty ≠ [] →
      getDBConnection env = .ok conn →
      (addColumn env tbl nm ty d).executed = some (addColumnSQL tbl nm ty d, [])) := by
  refine ⟨isValidColumnType_eq_spec, ?_, ?_⟩
  · intro req h
    exact validateColumns_types _ (validateCreate_columns req h).1
  · intro env tbl nm ty d conn h1 h2 h3 h4
    unfold addColumn
    rw [h1, h2, if_neg h3, h4]
    cases hER : env.execResult (addColumnSQL tbl nm ty d) <;> simp [hER]

/-- C2 witness: the example request's columns are all allow-listed, and a
concrete AddColumn with a non-empty type reaches execution. -/
theorem C2_witness :
    (∀ col ∈ exampleRequest.columns, isValidColumnType col.type = true) ∧
    (addColumn envOK (gs "t1") (gs "c1") (gs "WIDGET") none).executed =
      some (addColumnSQL (gs "t1") (gs "c1") (gs "WIDGET") none, []) :=
  ⟨C2_amended.2.1 exampleRequest (by decide),
   C2_amended.2.2 envOK (gs "t1") (gs "c1") (gs "WIDGET") none
     { host := gs "10.0.0.9", port := 5432, user := gs "admin",
       password := gs "pw", dbname := gs "postgres" }
     (by decide) (by decide) (by decide) (by decide)⟩

/-- A validated request whose single column carries a present-but-empty
default literal. -/
def defaultEmptyReq : CreateTableRequest :=
  { schema := gs "public"
    table := gs "t"
    columns := [{ name := gs "id", type := gs "INT", dflt := some [],
                  primary := false, isUnique := false, isIdentity := false, nullable := true }]
    foreignKeys := none }

/-- C6 (counterexample): the claim says a clause ends with
`DEFAULT <literal>` verbatim whenever a default is present.  For a
validated request whose column default is present but empty, the builder
emits no `DEFAULT` at all (table_service.go:192 requires the default to
be non-nil AND non-empty). -/
theorem C6_counterexample :
    validateCreateTableRequest defaultEmptyReq = none ∧
    defaultEmptyReq.columns.map Column.dflt = [some []] ∧
    containsSub (parseCreateQuery defaultEmptyReq) (gs "DEFAULT") = false := by
  decide

/-- C6 (amended): for every validated CreateTable request, the emitted
SQL is the `CREATE TABLE` header followed by one clause per column in
declaration order joined by `,\n` — each clause being the quoted name,
the type, then `GENERATED ALWAYS AS IDENTITY`, `PRIMARY KEY`, `UNIQUE`,
`NOT NULL` and `DEFAULT <literal>` in this order, the `DEFAULT`
appearing only for a present AND non-empty default (see `columnDef`) —
then, when a foreign-key block with references is present, a trailing
comma and one `FOREIGN KEY` clause per reference; in particular the
spec's example request yields SQL containing the two quoted example
clauses. -/
theorem C6_amended :
    (∀ req : CreateTableRequest, validateCreateTableRequest req = none →
      parseCreateQuery req =
        gs "CREATE TABLE \"" ++ (if req.schema = [] then gs "public" else req.schema) ++
        gs "\".\"" ++ req.table ++ gs "\" (\n" ++
        joinClauses (gs ",\n") (req.columns.map columnDef) ++
        (if hasFKSection req then gs "," else []) ++ gs "\n" ++
        fkTail req.foreignKeys ++ gs ");\n") ∧
    containsSub (parseCreateQuery exampleRequest)
      (gs "\"id\" INT GENERATED ALWAYS AS IDENTITY PRIMARY KEY NOT NULL") = true ∧
    containsSub (parseCreateQuery exampleRequest) (gs "\"name\" VARCHAR(50) NOT NULL") = true := by
  refine ⟨?_, by decide, by decide⟩
  intro req hval
  unfold parseCreateQuery
  rw [columnsSection_eq _ _ (validateCreate_columns req hval).2]
  cases hfk : req.foreignKeys with
  | none =>
    simp [fkTail, hasFKSection, hfk, List.append_assoc]
  | some fk =>
    by_cases hr : fk.references.length > 0
    · have hrne : fk.references ≠ [] := by
        intro he
        rw [he] at hr
        simp at hr
      simp [fkTail, hasFKSection, hfk, hr, fkSection_eq fk fk.references hrne,
        List.append_assoc]
    · simp [fkTail, hasFKSection, hfk, hr, List.append_assoc]

/-- A validated request carrying a foreign-key block, modelled on the
sample request in the comment of table_service.go. -/
def fkExampleReq : CreateTableRequest :=
  { schema := gs "public"
    table := gs "employees"
    columns :=
      [{ name := gs "id", type := gs "INT", dflt := none,
         primary := true, isUnique := false, isIdentity := true, nullable := false },
       { name := gs "department_id", type := gs "INT", dflt := none,
         primary := false, isUnique := false, isIdentity := false, nullable := false }]
    foreignKeys := some
      { schema := gs "public"
        table := gs "departments"
        references :=
          [{ localColumn := gs "department_id", foreignColumn := gs "id",
             onUpdate := gs "CASCADE", onDelete := gs "SET NULL" }] } }

/-- C6 witness: the amended structure theorem applied to the spec's
example request and to a validated request with a foreign-key block. -/
theorem C6_witness :
    (parseCreateQuery exampleRequest =
      gs "CREATE TABLE \"" ++
      (if exampleRequest.schema = [] then gs "public" else exampleRequest.schema) ++
      gs "\".\"" ++ exampleRequest.table ++ gs "\" (\n" ++
      joinClauses (gs ",\n") (exampleRequest.columns.map columnDef) ++
      (if hasFKSection exampleRequest then gs "," else []) ++ gs "\n" ++
      fkTail exampleRequest.foreignKeys ++ gs ");\n") ∧
    (parseCreateQuery fkExampleReq =
      gs "CREATE TABLE \"" ++
      (if fkExampleReq.schema = [] then gs "public" else fkExampleReq.schema) ++
      gs "\".\"" ++ fkExampleReq.table ++ gs "\" (\n" ++
      joinClauses (gs ",\n") (fkExampleReq.columns.map columnDef) ++
      (if hasFKSection fkExampleReq then gs "," else []) ++ gs "\n" ++
      fkTail fkExampleReq.foreignKeys ++ gs ");\n") :=
  ⟨C6_amended.1 exampleRequest (by decide), C6_amended.1 fkExampleReq (by decide)⟩

/-- An environment whose instance row has no container identifier. -/
def envNoCID : Env :=
  { envOK with inst := .ok (some { id := 3, containerID := none, port := some 5432 }) }

/-- An environment whose project has no running instance. -/
def envNoInst : Env :=
  { envOK with inst := .ok none }

/-- C3 (counterexample): the claim says a missing container identifier is
surfaced as a hard error.  In fact `ExecuteQuery` returns a successful
structured result with the failure embedded in its error field (and a
history record), not a hard error. -/
theorem C3_counterexample :
    executeQuery envNoCID 1 (gs "SELECT 1") =
      .soft { error := gs "database instance container ID not configured", executionTime := 5 }
        (failHistory 3 1 (gs "SELECT 1") 5) := by decide

/-- C3 (amended): in `ExecuteQuery`, only the ownership, running-instance
and credential lookups produce hard errors; once those three succeed no
hard error is possible — the remaining locator failures (missing
container ID, IP resolution failing in both registries, missing port,
credential decryption failure) are embedded as the error field of a
successfully returned structured result, with a failure history record. -/
theorem C3_amended (env : Env) (u : Nat) (q : List Char) :
    (∀ p, env.project = .ok (some p) → env.inst = .ok none →
      executeQuery env u q = .hard (gs "no running database instance for this project")) ∧
    (∀ p i, env.project = .ok (some p) → env.inst = .ok (some i) → env.cred = .ok none →
      executeQuery env u q = .hard (gs "no credentials configured for this database instance")) ∧
    (∀ p i c, env.project = .ok (some p) → env.inst = .ok (some i) → env.cred = .ok (some c) →
      validateSQLQuery q = none → i.containerID = none →
      executeQuery env u q =
        .soft { error := gs "database instance container ID not configured",
                executionTime := env.elapsedMs } (failHistory i.id u q env.elapsedMs)) ∧
    (∀ p i c cid e, env.project = .ok (some p) → env.inst = .ok (some i) →
      env.cred = .ok (some c) → validateSQLQuery q = none → i.containerID = some cid →
      cid ≠ [] → env.containerIP cid = none → env.redisIP cid = .error e →
      executeQuery env u q =
        .soft { error := gs "failed to get container IP from orchestrator",
                executionTime := env.elapsedMs } (failHistory i.id u q env.elapsedMs)) ∧
    (∀ p i c cid ip, env.project = .ok (some p) → env.inst = .ok (some i) →
      env.cred = .ok (some c) → validateSQLQuery q = none → i.containerID = some cid →
      cid ≠ [] → env.containerIP cid = some ip → i.port = none →
      executeQuery env u q =
        .soft { error := gs "database instance port not configured",
                executionTime := env.elapsedMs } (failHistory i.id u q env.elapsedMs)) ∧
    (∀ p i c cid ip port e, env.project = .ok (some p) → env.inst = .ok (some i) →
      env.cred = .ok (some c) → validateSQLQuery q = none → i.containerID = some cid →
      cid ≠ [] → env.containerIP cid = some ip → i.port = some port →
      env.decrypt c.passwordEncrypted = .error e →
      executeQuery env u q =
        .soft { error := gs "failed to decrypt database credentials",
                executionTime := env.elapsedMs } (failHistory i.id u q env.elapsedMs)) ∧
    (∀ p i c e, env.project = .ok (some p) → env.inst = .ok (some i) →
      env.cred = .ok (some c) → executeQuery env u q ≠ .hard e) := by
  refine ⟨?_, ?_, ?_, ?_, ?_, ?_, ?_⟩
  · intro p h1 h2
    simp [executeQuery, h1, h2]
  · intro p i h1 h2 h3
    simp [executeQuery, h1, h2, h3]
  · intro p i c h1 h2 h3 hv hcid
    simp [executeQuery, h1, h2, h3, hv, hcid]
  · intro p i c cid e h1 h2 h3 hv hcid hne hip hred
    simp [executeQuery, h1, h2, h3, hv, hcid, hne, hip, hred]
  · intro p i c cid ip h1 h2 h3 hv hcid hne hip hport
    simp [executeQuery, h1, h2, h3, hv, hcid, hne, hip, hport]
  · intro p i c cid ip port e h1 h2 h3 hv hcid hne hip hport hd
    simp [executeQuery, h1, h2, h3, hv, hcid, hne, hip, hport, hd]
  · intro p i c e h1 h2 h3
    cases hv : validateSQLQuery q with
    | some e2 => simp [executeQuery, h1, h2, h3, hv]
    | none =>
      cases hcid : i.containerID with
      | none => simp [executeQuery, h1, h2, h3, hv, hcid]
      | some cid =>
        by_cases hc : cid = []
        · simp [executeQuery, h1, h2, h3, hv, hcid, hc]
        · cases hip : env.containerIP cid with
          | some ip =>
            cases hport : i.port with
            | none => simp [executeQuery, h1, h2, h3, hv, hcid, hc, hip, hport]
            | some port =>
              cases hd : env.decrypt c.passwordEncrypted with
              | error e4 => simp [executeQuery, h1, h2, h3, hv, hcid, hc, hip, hport, hd]
              | ok pw =>
                cases ho : env.openErr with
                | some e5 => simp [executeQuery, h1, h2, h3, hv, hcid, hc, hip, hport, hd, ho]
                | none => simp [executeQuery, h1, h2, h3, hv, hcid, hc, hip, hport, hd, ho]
          | none =>
            cases hred : env.redisIP cid with
            | error e3 => simp [executeQuery, h1, h2, h3, hv, hcid, hc, hip, hred]
            | ok ip =>
              cases hport : i.port with
              | none => simp [executeQuery, h1, h2, h3, hv, hcid, hc, hip, hred, hport]
              | some port =>
                cases hd : env.decrypt c.passwordEncrypted with
                | error e4 =>
                  simp [executeQuery, h1, h2, h3, hv, hcid, hc, hip, hred, hport, hd]
                | ok pw =>
                  cases ho : env.openErr with
                  | some e5 =>
                    simp [executeQuery, h1, h2, h3, hv, hcid, hc, hip, hred, hport, hd, ho]
                  | none =>
                    simp [executeQuery, h1, h2, h3, hv, hcid, hc, hip, hred, hport, hd, ho]

/-- C3 witness: a missing running instance is a hard error, and with the
three lookups succeeding no hard error can be returned. -/
theorem C3_witness :
    executeQuery envNoInst 1 (gs "SELECT 1") =
      .hard (gs "no running database instance for this project") ∧
    executeQuery envOK 1 (gs "SELECT 1") ≠ .hard (gs "boom") :=
  ⟨(C3_amended envNoInst 1 (gs "SELECT 1")).1 { id := 7 } (by decide) (by decide),
   (C3_amended envOK 1 (gs "SELECT 1")).2.2.2.2.2.2
     { id := 7 } { id := 3, containerID := some (gs "cont-1"), port := some 5432 }
     { username := gs "admin", passwordEncrypted := gs "enc" } (gs "boom")
     (by decide) (by decide) (by decide)⟩

/-- C7: when the in-memory registry has no entry for the container but
the Redis-backed store returns a mapping without error, the Tenant
Locator succeeds and the host of the connection it builds is exactly
the persisted value — both in `getDBConnection` (used by the structured
operations) and in `ExecuteQuery`. -/
theorem C7_confirmed (env : Env) (u : Nat) (q : List Char) (p : Project) (i : DBInstance)
    (c : Credential) (cid ip pw : List Char) (port : Int)
    (h1 : env.project = .ok (some p)) (h2 : env.inst = .ok (some i))
    (h3 : env.cred = .ok (some c)) (h4 : i.containerID = some cid) (h5 : cid ≠ [])
    (h6 : env.containerIP cid = none) (h7 : env.redisIP cid = .ok ip)
    (h8 : i.port = some port) (h9 : env.decrypt c.passwordEncrypted = .ok pw)
    (h10 : env.openErr = none) :
    getDBConnection env =
      .ok { host := ip, port := port, user := c.username,
            password := pw, dbname := gs "postgres" } ∧
    (validateSQLQuery q = none →
      ∃ r h, executeQuery env u q =
        .ran { host := ip, port := port, user := c.username,
               password := pw, dbname := gs "postgres" } r h) := by
  constructor
  · simp [getDBConnection, h1, h2, h3, h4, h5, h6, h7, h8, h9, h10]
  · intro hv
    simp only [executeQuery, h1, h2, h3, h4, h6, h7, h8, h9, h10, hv, if_neg h5]
    exact ⟨_, _, rfl⟩

/-- An environment whose in-memory registry always misses but whose
persistent store maps the container. -/
def envRedis : Env :=
  { envOK with
    containerIP := fun _ => none
    redisIP := fun cid => if cid = gs "cont-1" then .ok (gs "10.1.2.3") else .error (gs "no mapping") }

/-- C7 witness: with the registry missing and Redis holding `10.1.2.3`,
both locator paths connect to `10.1.2.3`. -/
theorem C7_witness :
    getDBConnection envRedis =
      .ok { host := gs "10.1.2.3", port := 5432, user := gs "admin",
            password := gs "pw", dbname := gs "postgres" } ∧
    (validateSQLQuery (gs "SELECT 1") = none →
      ∃ r h, executeQuery envRedis 1 (gs "SELECT 1") =
        .ran { host := gs "10.1.2.3", port := 5432, user := gs "admin",
               password := gs "pw", dbname := gs "postgres" } r h) :=
  C7_confirmed envRedis 1 (gs "SELECT 1") { id := 7 }
    { id := 3, containerID := some (gs "cont-1"), port := some 5432 }
    { username := gs "admin", passwordEncrypted := gs "enc" }
    (gs "cont-1") (gs "10.1.2.3") (gs "pw") 5432
    (by decide) (by decide) (by decide) (by decide) (by decide)
    (by decide) (by decide) (by decide) (by decide) (by decide)

/-- C8: the Tenant Locator is a pure function of the backing state: two
location calls against the same environment that both succeed return
identical host, port, username and decrypted password (the locator
caches nothing and consults nothing besides the environment). -/
theorem C8_confirmed (env : Env) (c1 c2 : ConnInfo)
    (h1 : getDBConnection env = .ok c1) (h2 : getDBConnection env = .ok c2) :
    c1.host = c2.host ∧ c1.port = c2.port ∧ c1.user = c2.user ∧ c1.password = c2.password := by
  rw [h1] at h2
  injection h2 with h
  subst h
  exact ⟨rfl, rfl, rfl, rfl⟩

/-- C8 witness: two successful calls against `envOK`. -/
theorem C8_witness :
    (ConnInfo.host { host := gs "10.0.0.9", port := 5432, user := gs "admin",
                     password := gs "pw", dbname := gs "postgres" }) =
      (ConnInfo.host { host := gs "10.0.0.9", port := 5432, user := gs "admin",
                       password := gs "pw", dbname := gs "postgres" }) ∧
    (5432 : Int) = 5432 ∧ gs "admin" = gs "admin" ∧ gs "pw" = gs "pw" := by
  have h := C8_confirmed envOK
    { host := gs "10.0.0.9", port := 5432, user := gs "admin",
      password := gs "pw", dbname := gs "postgres" }
    { host := gs "10.0.0.9", port := 5432, user := gs "admin",
      password := gs "pw", dbname := gs "postgres" }
    (by decide) (by decide)
  exact ⟨h.1, h.2.1, h.2.2.1, h.2.2.2⟩

/-- C10: (i) whenever `DeleteRow` executes a statement, that statement is
exactly `DELETE FROM <quoted table> WHERE customer_id = $1` with the
parsed 64-bit row id as its single bound parameter — the filter column
is the fixed name `customer_id` regardless of the request; (ii) whenever
table validation, row-id parsing and tenant location all succeed, such a
statement is indeed executed. -/
theorem C10_confirmed (env : Env) (t r : List Char) :
    (∀ s ps, (deleteRow env t r).executed = some (s, ps) →
      s = gs "DELETE FROM " ++ quoteIdentifier t ++ gs " WHERE customer_id = $1" ∧
      ∃ n, parseInt64 r = .ok n ∧ ps = [n]) ∧
    (∀ n conn, validateIdentifier t = none → parseInt64 r = .ok n →
      getDBConnection env = .ok conn →
      (deleteRow env t r).executed =
        some (gs "DELETE FROM " ++ quoteIdentifier t ++ gs " WHERE customer_id = $1", [n])) := by
  constructor
  · intro s ps h
    unfold deleteRow at h
    cases hvt : validateIdentifier t with
    | some e => rw [hvt] at h; simp at h
    | none =>
      rw [hvt] at h
      cases hconn : getDBConnection env with
      | error e => rw [hconn] at h; simp at h
      | ok conn =>
        rw [hconn] at h
        cases hp : parseInt64 r with
        | error e => rw [hp] at h; simp at h
        | ok n =>
          rw [hp] at h
          cases hER : env.execResult
              (gs "DELETE FROM " ++ quoteIdentifier t ++ gs " WHERE customer_id = $1") with
          | error e =>
            simp only [hER] at h
            obtain ⟨hs, hps⟩ := Prod.mk.injEq .. ▸ Option.some.injEq .. ▸ h
            exact ⟨by rw [← hs], n, rfl, by rw [← hps]⟩
          | ok k =>
            simp only [hER] at h
            by_cases hk : k = 0
            · rw [if_pos hk] at h
              simp only [Option.some.injEq, Prod.mk.injEq] at h
              exact ⟨h.1.symm, n, rfl, h.2.symm⟩
            · rw [if_neg hk] at h
              simp only [Option.some.injEq, Prod.mk.injEq] at h
              exact ⟨h.1.symm, n, rfl, h.2.symm⟩
  · intro n conn h1 h2 h3
    unfold deleteRow
    rw [h1, h3, h2]
    dsimp only
    split
    · rfl
    · split <;> rfl

/-- C10 witness: a concrete DeleteRow call executes the fixed-filter
statement with the parsed id bound. -/
theorem C10_witness :
    (deleteRow envOK (gs "orders") (gs "42")).executed =
      some (gs "DELETE FROM " ++ quoteIdentifier (gs "orders") ++ gs " WHERE customer_id = $1",
        [42]) :=
  (C10_confirmed envOK (gs "orders") (gs "42")).2 42
    { host := gs "10.0.0.9", port := 5432, user := gs "admin",
      password := gs "pw", dbname := gs "postgres" }
    (by decide) (by decide) (by decide)

end Gateway
